import Mathlib

/-!
Shallow embedding of the style-transfer program in `src/style_transfer.py`.
Tensors are modelled as rational-valued functions of their indices (the batch
dimension, always 1 in this program, is dropped); TensorFlow reductions become
finite sums over `Finset.range`; the fallible parts of the driver are modelled
with `Except`.  Every definition is transcribed from the source file; the one
definition transcribed from the specification's own words instead is
`corrStatSpec`, used to compare the source's `_gram_matrix` with the spec.
-/

namespace StyleTransfer

/-- An activation tensor of one style or content layer: spatial positions are
addressed by natural row/column indices and there are `C` channels.  Entries
are rationals, standing for the real-valued tensor entries. -/
def Activation (C : ℕ) : Type := ℕ → ℕ → Fin C → ℚ

/-- The slicing `input_tensor[:, offset:, offset:, :]` of line 176: drop the
first `offset` rows and columns, so position `(i, j)` of the cropped tensor is
position `(i + offset, j + offset)` of the original. -/
def cropHead (C : ℕ) (offset : ℕ) (a : Activation C) : Activation C :=
  fun i j c => a (i + offset) (j + offset) c

/-- The contraction `tf.linalg.einsum('bijc,bijd->bcd', x, y)` of line 176 for
the single batch element: entry `(c, d)` sums `x i j c * y i j d` over the
common spatial grid `H × W` of the two cropped tensors. -/
def einsumSpatial (C : ℕ) (H W : ℕ) (x y : Activation C) (c d : Fin C) : ℚ :=
  ∑ i ∈ Finset.range H, ∑ j ∈ Finset.range W, x i j c * y i j d

/-- Transcription of `_gram_matrix` (lines 175-179).  For `offset ≥ 1` the
slice `input_tensor[:, offset:, offset:, :]` has spatial shape
`(H - offset) × (W - offset)` and the slice
`input_tensor[:, :-offset, :-offset, :]` is the original tensor restricted to
its first `H - offset` rows and `W - offset` columns, which is why the second
einsum argument is `a` itself summed over that range (for `offset = 0` the
Python slice `[:-0]` would instead be empty, so this transcription is faithful
only for `offset ≥ 1`, the regime the claims quantify over).  The einsum result
is divided by `num_locations`, the product of the two spatial extents of the
cropped tensor, `(H - offset) * (W - offset)`.  The result has one entry per
pair of channels, hence is `C × C` whatever `H`, `W` and the offset are. -/
def gram_matrix (C : ℕ) (H W : ℕ) (offset : ℕ) (a : Activation C)
    (c d : Fin C) : ℚ :=
  einsumSpatial C (H - offset) (W - offset) (cropHead C offset a) a c d
    / (((H - offset) * (W - offset) : ℕ) : ℚ)

/-- The correlation statistic exactly as the specification words it (spec
section 4.2): entry `(c, d)` is the average, over all valid spatial positions
`(i, j)`, of the product of the channel-`c` activation at `(i + k, j + k)` and
the channel-`d` activation at `(i, j)`, normalized by `(H - k) * (W - k)`. -/
def corrStatSpec (C : ℕ) (H W k : ℕ) (a : Activation C) (c d : Fin C) : ℚ :=
  (∑ i ∈ Finset.range (H - k), ∑ j ∈ Finset.range (W - k),
      a (i + k) (j + k) c * a i j d) / (((H - k) * (W - k) : ℕ) : ℚ)

/-- The pointwise mean of absolute differences
`tf.reduce_mean(tf.math.abs(x - y))` over a `C × C` correlation matrix
(line 70). -/
def meanAbsMat (C : ℕ) (x y : ℕ → ℕ → ℚ) : ℚ :=
  (∑ c ∈ Finset.range C, ∑ d ∈ Finset.range C, |x c d - y c d|)
    / ((C * C : ℕ) : ℚ)

/-- The pointwise mean of absolute differences
`tf.reduce_mean(tf.math.abs(x - y))` over an `H × W × C` raw activation
(line 74). -/
def meanAbsAct (H W C : ℕ) (x y : ℕ → ℕ → ℕ → ℚ) : ℚ :=
  (∑ i ∈ Finset.range H, ∑ j ∈ Finset.range W, ∑ c ∈ Finset.range C,
      |x i j c - y i j c|) / ((H * W * C : ℕ) : ℚ)

/-- One style layer as consumed by `style_content_loss`: the channel count of
the layer, its configured weight (the entry of `style_layer_weights` that
`dict(zip(style_layers, list(style_layer_weights)))` associates to the layer's
name on line 69), the candidate's correlation matrix for the layer and the
fixed target correlation matrix. -/
structure StyleLayerData where
  C : ℕ
  weight : ℚ
  cand : ℕ → ℕ → ℚ
  targ : ℕ → ℕ → ℚ

/-- One content layer as consumed by `style_content_loss`: the dimensions of
the layer's activation, the candidate's raw activation and the fixed target
activation. -/
structure ContentLayerData where
  H : ℕ
  W : ℕ
  C : ℕ
  cand : ℕ → ℕ → ℕ → ℚ
  targ : ℕ → ℕ → ℕ → ℚ

/-- Transcription of `style_content_loss` (lines 65-78).  The style loss sums,
over the style layers, the mean absolute difference between candidate and
target correlation matrices times the layer's weight, and the sum is then
multiplied by `style_weight / num_style_layers`; the content loss sums the mean
absolute differences of the raw activations and is multiplied by
`content_weight / num_content_layers`.  The function returns the triple
`(loss, content_loss, style_loss)` with `loss = style_loss + content_loss`,
in the order of the return statement on line 78. -/
def style_content_loss (styleWeight contentWeight : ℚ)
    (styleLayers : List StyleLayerData) (contentLayers : List ContentLayerData) :
    ℚ × ℚ × ℚ :=
  let rawStyle :=
    (styleLayers.map fun L => meanAbsMat L.C L.cand L.targ * L.weight).sum
  let styleLoss := rawStyle * (styleWeight / (styleLayers.length : ℚ))
  let rawContent :=
    (contentLayers.map fun L => meanAbsAct L.H L.W L.C L.cand L.targ).sum
  let contentLoss := rawContent * (contentWeight / (contentLayers.length : ℚ))
  (styleLoss + contentLoss, contentLoss, styleLoss)

/-- Line 84 binds the name `loss` to the entire triple
`(loss, content_loss, style_loss)` returned by `style_content_loss` — the
tuple is never unpacked.  Line 85 then executes
`loss += total_variation_weight * tf.image.total_variation(image)`: TensorFlow
converts the tuple of three scalar tensors into a length-3 tensor
`[loss, content_loss, style_loss]` (sequence autopacking, via the tensor's
right-hand addition) and broadcasts the total-variation term against it, so
the smoothness term is added to each of the three entries. -/
def lossAfterTV (t : ℚ × ℚ × ℚ) (tvTerm : ℚ) : ℚ × ℚ × ℚ :=
  (t.1 + tvTerm, t.2.1 + tvTerm, t.2.2 + tvTerm)

/-- On line 87, `tape.gradient` receives the length-3 tensor of `lossAfterTV`
as target; with a non-scalar target the gradient computed is that of the sum
of the target's entries, so this sum is the scalar quantity actually
differentiated with respect to the candidate image. -/
def gradTarget (t : ℚ × ℚ × ℚ) : ℚ := t.1 + t.2.1 + t.2.2

/-- A one-layer style configuration with layer weight 1, candidate correlation
matrix constantly 1 and target constantly 0 (so its mean absolute difference
is 1), used to evaluate the loss pipeline at a concrete input. -/
def demoStyleLayers : List StyleLayerData :=
  [⟨1, 1, fun _ _ => 1, fun _ _ => 0⟩]

/-- A one-layer content configuration with a 1 × 1 × 1 activation, candidate
constantly 1 and target constantly 0, used to evaluate the loss pipeline at a
concrete input. -/
def demoContentLayers : List ContentLayerData :=
  [⟨1, 1, 1, fun _ _ _ => 1, fun _ _ _ => 0⟩]

/-- The candidate image: pixel values addressed by row, column and channel. -/
def Image : Type := ℕ → ℕ → ℕ → ℚ

/-- Transcription of `clip_0_1` (lines 171-172):
`tf.clip_by_value(image, 0.0, 1.0)` clamps each entry into `[0, 1]`. -/
def clip_0_1 (x : ℚ) : ℚ := min (max x 0) 1

/-- The mutation of the candidate image performed by one call of `train_step`
(lines 87-89): the optimizer applies its update to the image
(`opt.apply_gradients`, abstracted here as an arbitrary function `update` of
the current image, since the claims quantify over every update), and the image
is then assigned `clip_0_1` of the updated value. -/
def trainStepImage (update : Image → Image) (img : Image) : Image :=
  fun i j c => clip_0_1 (update img i j c)

/-- The Python function `train_step` (lines 80-89) ends at
`image.assign(clip_0_1(image))` and has no return statement, so it returns
`None`, modelled as `none`: no triple of loss values is ever returned to the
caller. -/
def trainStepReturn : Option (ℚ × ℚ × ℚ) := none

/-- The driver state of the training loop (lines 91-108): the candidate image
variable, the `step` counter of line 93, and the number of checkpoint images
written so far by line 104. -/
structure DriverState where
  image : Image
  steps : ℕ
  checkpoints : ℕ

/-- One iteration of the inner loop body (lines 96-97): `step += 1`, then
`loss, content_loss, style_loss = train_step(image)`.  The call of
`train_step` performs the optimizer update and the projection on the image and
returns `None` (`trainStepReturn`); unpacking `None` into three names raises
`TypeError`, modelled as `Except.error` carrying the state at the moment of
the crash (the update and projection have already happened). -/
def innerIteration (update : Image → Image) (st : DriverState) :
    Except DriverState (DriverState × (ℚ × ℚ × ℚ)) :=
  let st1 : DriverState :=
    { st with image := trainStepImage update st.image, steps := st.steps + 1 }
  match trainStepReturn with
  | none => Except.error st1
  | some t => Except.ok (st1, t)

/-- The inner loop `for m in range(steps_per_epoch)` (lines 95-101), with an
exception propagating out as `Except.error`. -/
def innerLoop (update : Image → Image) :
    ℕ → DriverState → Except DriverState DriverState
  | 0, st => Except.ok st
  | m + 1, st =>
    match innerIteration update st with
    | Except.error s => Except.error s
    | Except.ok (s, _) => innerLoop update m s

/-- The outer loop `for n in range(epochs)` (lines 94-108): run the inner loop
and then, guarded by the truthiness test `if save_folder:` of line 103, write
one checkpoint image. -/
def outerLoop (update : Image → Image) (saveFolderTruthy : Bool)
    (stepsPerEpoch : ℕ) : ℕ → DriverState → Except DriverState DriverState
  | 0, st => Except.ok st
  | n + 1, st =>
    match innerLoop update stepsPerEpoch st with
    | Except.error s => Except.error s
    | Except.ok s =>
      outerLoop update saveFolderTruthy stepsPerEpoch n
        { s with checkpoints :=
            if saveFolderTruthy then s.checkpoints + 1 else s.checkpoints }

/-- State of one execution of the loop for the determinism analysis: the
candidate image, the sequence of loss triples produced by the steps executed
so far, and the checkpoint images written so far.  Initialization carries no
randomness: the image starts as the copy `tf.Variable(content_image)` of the
content image (line 91). -/
structure RunState where
  image : Image
  losses : List (ℚ × ℚ × ℚ)
  saved : List Image

/-- Big-step execution relation of the inner loop (lines 95-101) over
`RunState`: either the loop has no iterations left, or an iteration crashes
unpacking the `None` returned by `train_step`, or (hypothetically, were a
triple returned) the triple is recorded and the loop continues. -/
inductive InnerExec (update : Image → Image) :
    ℕ → RunState → Except RunState RunState → Prop where
  | done (st : RunState) : InnerExec update 0 st (Except.ok st)
  | crash (m : ℕ) (st : RunState) :
      trainStepReturn = none →
      InnerExec update (m + 1) st
        (Except.error { st with image := trainStepImage update st.image })
  | next (m : ℕ) (st : RunState) (t : ℚ × ℚ × ℚ)
      (out : Except RunState RunState) :
      trainStepReturn = some t →
      InnerExec update m
        { st with image := trainStepImage update st.image,
                  losses := st.losses ++ [t] } out →
      InnerExec update (m + 1) st out

/-- Big-step execution relation of the outer loop (lines 94-108) over
`RunState`: each epoch runs the inner loop and, when it completes, appends the
current image to the checkpoints when `save` is truthy. -/
inductive OuterExec (update : Image → Image) (save : Bool)
    (stepsPerEpoch : ℕ) : ℕ → RunState → Except RunState RunState → Prop where
  | done (st : RunState) :
      OuterExec update save stepsPerEpoch 0 st (Except.ok st)
  | crash (n : ℕ) (st er : RunState) :
      InnerExec update stepsPerEpoch st (Except.error er) →
      OuterExec update save stepsPerEpoch (n + 1) st (Except.error er)
  | next (n : ℕ) (st st2 : RunState) (out : Except RunState RunState) :
      InnerExec update stepsPerEpoch st (Except.ok st2) →
      OuterExec update save stepsPerEpoch n
        { st2 with saved :=
            if save then st2.saved ++ [st2.image] else st2.saved } out →
      OuterExec update save stepsPerEpoch (n + 1) st out

/-- The argument `content_layers` of `style_transfer` as supplied by the
caller: either a single layer-name string, as in the default
`content_layers='block4_conv1'` of line 12, or a sequence of layer names, as
for `style_layers` on line 13. -/
inductive ContentLayersArg where
  | str (s : String)
  | seq (l : List String)

/-- Line 53, `content_layers = list(content_layers)`: Python's `list` applied
to a string yields the list of its one-character substrings, while applied to
a list or tuple it yields its elements. -/
def pyListOfArg : ContentLayersArg → List String
  | ContentLayersArg.str s => s.toList.map (fun ch => String.mk [ch])
  | ContentLayersArg.seq l => l

/-- The externally visible actions of the prelude of `style_transfer`
(lines 44-61), in program order. -/
inductive Effect where
  | dirCheck
  | mkdirOut
  | writeParams
  | loadContentImage
  | loadStyleImage
  | buildExtractor
  deriving DecidableEq

/-- Line 44, `os.path.isdir(save_folder)`: with `save_folder = None` Python's
`isdir` raises `TypeError` (its implementation only suppresses `OSError` and
`ValueError`, and `os.stat(None)` raises `TypeError` for the `None` path);
with a string path it consults the file system, abstracted by the oracle
`dirExists`. -/
def os_path_isdir (dirExists : String → Bool) :
    Option String → Except String Bool
  | none => Except.error "TypeError: path should be string or bytes, not NoneType"
  | some s => Except.ok (dirExists s)

/-- The prelude of `style_transfer` (lines 44-61) as the list of external
actions it performs before the optimization loop, paired with `some message`
when an exception aborts the run: check the output directory (line 44), create
it when missing (line 45), write `params.json` (lines 47-48), load the content
and the style image (lines 50-51), build the extractor (line 59).  An
exception in the directory check stops the sequence at once. -/
def setupEffects (dirExists : String → Bool) (saveFolder : Option String) :
    List Effect × Option String :=
  match os_path_isdir dirExists saveFolder with
  | Except.error msg => ([Effect.dirCheck], some msg)
  | Except.ok b =>
      ((Effect.dirCheck :: (if b then [] else [Effect.mkdirOut]))
        ++ [Effect.writeParams, Effect.loadContentImage, Effect.loadStyleImage,
            Effect.buildExtractor], none)

/-- Line 103, `if save_folder:` — Python truthiness of the optional string:
`None` and the empty string are falsy, every other string is truthy. -/
def pyTruthy : Option String → Bool
  | none => false
  | some s => s != ""

/-! Theorems. -/

/-- Helper for the mean-absolute-difference factors: each summand of the style
loss may be written with the weight on the left. -/
theorem styleSummand_comm (sl : List StyleLayerData) :
    (sl.map fun L => meanAbsMat L.C L.cand L.targ * L.weight)
      = sl.map fun L => L.weight * meanAbsMat L.C L.cand L.targ := by
  have h : (fun (L : StyleLayerData) => meanAbsMat L.C L.cand L.targ * L.weight)
      = fun (L : StyleLayerData) => L.weight * meanAbsMat L.C L.cand L.targ :=
    funext fun L => mul_comm _ _
  rw [h]

/-- Helper: with zero inner steps per epoch, the outer loop only bumps the
checkpoint counter and leaves image and step counter unchanged. -/
theorem outerLoop_steps_zero (update : Image → Image) (b : Bool) :
    ∀ (e : ℕ) (st : DriverState),
      outerLoop update b 0 e st
        = Except.ok
            { st with checkpoints := st.checkpoints + (if b then e else 0) } := by
  intro e
  induction e with
  | zero => intro st; simp [outerLoop]
  | succ e ih =>
    intro st
    simp only [outerLoop, innerLoop, ih]
    cases b <;> simp [DriverState.mk.injEq] <;> omega

/-- C1: the correlation statistic computed by `_gram_matrix` for an activation
tensor of spatial extent `H × W` with `C` channels and any offset `k ≥ 1` is
exactly the specification's statistic `corrStatSpec`: its entry `(c, d)` is
the average over all valid spatial positions of the product of the channel-`c`
activation at `(i + k, j + k)` and the channel-`d` activation at `(i, j)`,
normalized by exactly `(H - k) * (W - k)`; the result is indexed by
`Fin C × Fin C`, hence `C × C` regardless of the spatial dimensions and of
`k`. -/
theorem gram_matrix_eq_corrStatSpec (C H W k : ℕ) (a : Activation C)
    (hk : 1 ≤ k) (c d : Fin C) :
    gram_matrix C H W k a c d = corrStatSpec C H W k a c d := rfl

/-- Witness for C1 at the concrete input `C = 1`, `H = W = 3`, `k = 1` and the
constant activation 1. -/
theorem gram_matrix_eq_corrStatSpec_w :
    1 ≤ 1
    ∧ gram_matrix 1 3 3 1 (fun _ _ _ => 1) 0 0
        = corrStatSpec 1 3 3 1 (fun _ _ _ => 1) 0 0 :=
  ⟨Nat.le_refl 1,
   gram_matrix_eq_corrStatSpec 1 3 3 1 (fun _ _ _ => 1) (Nat.le_refl 1) 0 0⟩

/-- C2: for every global style weight, set of style layers with per-layer
weights and candidate/target correlation matrices, the style-loss component
returned by `style_content_loss` equals (global style weight / number of style
layers) times the sum over layers of (layer weight times the mean absolute
difference of the two correlation matrices); and in the concrete scenario of
3 layers with weights (0.1, 0.5, 1.0), per-layer mean absolute differences
(2.0, 4.0, 1.0) and global style weight 0.01, it equals 0.01/3 * 3.2 (with
3.2 = 16/5). -/
theorem style_loss_formula :
    (∀ (sw cw : ℚ) (sl : List StyleLayerData) (cl : List ContentLayerData),
        (style_content_loss sw cw sl cl).2.2
          = sw / (sl.length : ℚ)
              * (sl.map fun L => L.weight * meanAbsMat L.C L.cand L.targ).sum)
    ∧ (style_content_loss (1 / 100) 0
          [⟨1, 1 / 10, fun _ _ => 2, fun _ _ => 0⟩,
           ⟨1, 1 / 2, fun _ _ => 4, fun _ _ => 0⟩,
           ⟨1, 1, fun _ _ => 1, fun _ _ => 0⟩] []).2.2
        = 1 / 100 / 3 * (16 / 5) := by
  constructor
  · intro sw cw sl cl
    show (sl.map fun L => meanAbsMat L.C L.cand L.targ * L.weight).sum
          * (sw / (sl.length : ℚ))
        = sw / (sl.length : ℚ)
          * (sl.map fun L => L.weight * meanAbsMat L.C L.cand L.targ).sum
    rw [styleSummand_comm, mul_comm]
  · norm_num [style_content_loss, meanAbsMat, Finset.sum_range_one, sub_zero,
      abs_of_nonneg]

/-- C3 (demonstrating the code bug): at a concrete step with total loss 2
(content component 1, style component 1) and a weighted total-variation term
of 1, the scalar actually differentiated — the sum of the entries of the
length-3 tensor obtained when line 85 adds the smoothness term to the tuple
bound on line 84 — is 7, whereas the claim's quantity, style loss plus content
loss plus the smoothness term added once, is 3. -/
theorem train_step_grad_target_bug :
    gradTarget (lossAfterTV (style_content_loss 1 1 demoStyleLayers demoContentLayers) 1) = 7
    ∧ (style_content_loss 1 1 demoStyleLayers demoContentLayers).1 + 1 = 3 := by
  constructor
  · norm_num [gradTarget, lossAfterTV, style_content_loss, demoStyleLayers,
      demoContentLayers, meanAbsMat, meanAbsAct, Finset.sum_range_one, sub_zero,
      abs_of_nonneg]
  · norm_num [style_content_loss, demoStyleLayers, demoContentLayers, meanAbsMat,
      meanAbsAct, Finset.sum_range_one, sub_zero, abs_of_nonneg]

/-- C4 (demonstrating the code bug): with `epochs = 3` and
`steps_per_epoch = 50`, the loop does not perform 150 optimizer steps or emit
3 checkpoints: the very first iteration crashes when the caller unpacks the
`None` returned by `train_step`, so the run aborts with exactly 1 optimizer
step performed and 0 checkpoints written. -/
theorem loop_crashes_first_step (update : Image → Image) (img : Image) :
    outerLoop update true 50 3 { image := img, steps := 0, checkpoints := 0 }
      = Except.error
          { image := trainStepImage update img, steps := 1, checkpoints := 0 } :=
  rfl

/-- C5: after every optimizer update followed by the projection, every pixel
value of the candidate image lies in `[0, 1]` — both after a single
`train_step` image mutation from an arbitrary image, and after every positive
number of iterated mutations, i.e. at every step of the run. -/
theorem range_invariant (update : Image → Image) (img : Image) (n i j c : ℕ) :
    (0 ≤ trainStepImage update img i j c ∧ trainStepImage update img i j c ≤ 1)
    ∧ (0 ≤ ((trainStepImage update)^[n + 1] img) i j c
        ∧ ((trainStepImage update)^[n + 1] img) i j c ≤ 1) := by
  have hclip : ∀ x : ℚ, 0 ≤ clip_0_1 x ∧ clip_0_1 x ≤ 1 := fun x =>
    ⟨le_min (le_max_right x 0) zero_le_one, min_le_right _ _⟩
  refine ⟨hclip _, ?_⟩
  rw [Function.iterate_succ_apply']
  exact hclip _

/-- C6 (demonstrating the code bug): with the default single-string argument
`content_layers = 'block4_conv1'`, line 53 (`list(content_layers)`) does not
produce the one-element list of that layer name: it shatters the string into
its twelve one-character substrings, so the extractor is constructed with
twelve bogus content-layer names (the first being `"b"`, which matches no
layer-name pattern `blockN_convM` of the pretrained network, so the
construction fails), not with the single layer `block4_conv1`. -/
theorem content_layers_string_shatter :
    pyListOfArg (ContentLayersArg.str "block4_conv1")
        = ["b", "l", "o", "c", "k", "4", "_", "c", "o", "n", "v", "1"]
    ∧ (pyListOfArg (ContentLayersArg.str "block4_conv1")).length = 12
    ∧ pyListOfArg (ContentLayersArg.str "block4_conv1") ≠ ["block4_conv1"] := by
  refine ⟨rfl, rfl, ?_⟩
  decide

/-- C7: running the loop with `epochs = 0` — or with `steps_per_epoch = 0` —
performs no optimizer step (the step counter stays 0) and leaves the candidate
image equal to the image it was initialized with, the copy of the (already
in-range, hence clipped-identical) content image made on line 91; with
`steps_per_epoch = 0` the checkpoint counter alone may advance. -/
theorem zero_step_identity (update : Image → Image) (b : Bool) (s e : ℕ)
    (img : Image) :
    outerLoop update b s 0 { image := img, steps := 0, checkpoints := 0 }
        = Except.ok { image := img, steps := 0, checkpoints := 0 }
    ∧ outerLoop update b 0 e { image := img, steps := 0, checkpoints := 0 }
        = Except.ok
            { image := img, steps := 0, checkpoints := if b then e else 0 } := by
  constructor
  · rfl
  · rw [outerLoop_steps_zero]
    cases b <;> simp

/-- Helper: the inner-loop execution relation is deterministic — from one
state and iteration count only one outcome is derivable. -/
theorem innerExec_det (update : Image → Image) {m : ℕ} {st : RunState}
    {o1 o2 : Except RunState RunState}
    (h1 : InnerExec update m st o1) (h2 : InnerExec update m st o2) :
    o1 = o2 := by
  induction h1 generalizing o2 with
  | done st =>
    cases h2
    rfl
  | crash m st hnone =>
    cases h2 with
    | crash _ _ _ => rfl
    | next _ _ t out hsome _ => simp [trainStepReturn] at hsome
  | next m st t out hsome htail ih =>
    simp [trainStepReturn] at hsome

/-- C8: the run is deterministic.  Two executions of the outer loop from the
same initial state (the candidate always starts as the copy of the content
image, with empty loss and checkpoint records, and no source of randomness
appears in the relation) with the same configuration produce the same outcome:
the same sequence of recorded loss values, the same checkpoint images and the
same final candidate image. -/
theorem run_deterministic (update : Image → Image) (save : Bool)
    (sp e : ℕ) (st : RunState) (o1 o2 : Except RunState RunState)
    (h1 : OuterExec update save sp e st o1)
    (h2 : OuterExec update save sp e st o2) : o1 = o2 := by
  induction h1 generalizing o2 with
  | done st =>
    cases h2
    rfl
  | crash n st er hinner =>
    cases h2 with
    | crash _ _ er2 hinner2 =>
      have h := innerExec_det update hinner hinner2
      cases h
      rfl
    | next _ _ st2 _ hinner2 _ =>
      have h := innerExec_det update hinner hinner2
      cases h
  | next n st st2 out hinner hrest ih =>
    cases h2 with
    | crash _ _ er2 hinner2 =>
      have h := innerExec_det update hinner hinner2
      cases h
    | next _ _ st2b out2 hinner2 hrest2 =>
      have h := innerExec_det update hinner hinner2
      injection h with h
      subst h
      exact ih _ hrest2

/-- Witness for C8 at the concrete configuration `epochs = 0` with the
all-zero initial image: both executions are the trivial one and the theorem
yields the equality of their outcomes. -/
theorem run_deterministic_w :
    (Except.ok (⟨fun _ _ _ => 0, [], []⟩ : RunState)
        : Except RunState RunState)
      = Except.ok (⟨fun _ _ _ => 0, [], []⟩ : RunState) :=
  run_deterministic (fun i => i) true 1 0 ⟨fun _ _ _ => 0, [], []⟩
    (Except.ok ⟨fun _ _ _ => 0, [], []⟩) (Except.ok ⟨fun _ _ _ => 0, [], []⟩)
    (OuterExec.done ⟨fun _ _ _ => 0, [], []⟩)
    (OuterExec.done ⟨fun _ _ _ => 0, [], []⟩)

/-- C9: with global style weight 0 the style-loss component returned by
`style_content_loss` is exactly 0 — for every content weight, every choice of
per-style-layer weights and every candidate/target data — and the total loss
then equals the content component alone. -/
theorem zero_style_weight (cw : ℚ) (sl : List StyleLayerData)
    (cl : List ContentLayerData) :
    (style_content_loss 0 cw sl cl).2.2 = 0
    ∧ (style_content_loss 0 cw sl cl).1 = (style_content_loss 0 cw sl cl).2.1 := by
  unfold style_content_loss
  simp

/-- C10: calling `style_transfer` with `save_folder` left at its default
`None` raises in the output-directory check of line 44, before any image is
loaded (the effect sequence stops at the directory check and contains neither
image-load effect), so a run without an output directory is impossible — even
though the per-epoch checkpoint write of line 103 is itself guarded by the
truthiness test `if save_folder:`, under which `None` is falsy. -/
theorem none_save_folder_raises (dirExists : String → Bool) :
    (setupEffects dirExists none).1 = [Effect.dirCheck]
    ∧ (setupEffects dirExists none).2.isSome = true
    ∧ Effect.loadContentImage ∉ (setupEffects dirExists none).1
    ∧ Effect.loadStyleImage ∉ (setupEffects dirExists none).1
    ∧ pyTruthy none = false := by
  have h : setupEffects dirExists none
      = ([Effect.dirCheck],
         some "TypeError: path should be string or bytes, not NoneType") := rfl
  rw [h]
  refine ⟨rfl, rfl, ?_, ?_, rfl⟩
  · decide
  · decide

end StyleTransfer
